import Mathlib

/-!
Verification development for the MicroSlither.io snake-game cross-chain
contract.  The definitions below are a shallow embedding of the Rust
sources `src/snake-game-contract/src/{lib.rs, state.rs, contract.rs}`:

* `ChainId` is modelled as `Nat` (an opaque comparable identifier).
* Machine integers (`u32`, `u64`) are modelled as `Nat`; none of the
  verified properties depends on wrap-around behaviour, and Rust's
  checked arithmetic makes overflow a program abort rather than a wrap.
* The Linera `MapView`/`SetView` storage is modelled as key-sorted
  association lists (the underlying store enumerates keys in order);
  the `String`-keyed session map, whose enumeration order is never
  observed, is modelled as a plain association list.
* A Rust `panic` inside an operation aborts the operation and rolls the
  durable state back, so fallible operations return `Option`: `none`
  models the fatal failure with state unchanged.
* `runtime.send_message(dest, msg)` calls are collected into an output
  list of `(destination, message)` pairs, in program order.
-/

/-- Chain identifiers are opaque comparable ids; we model them as `Nat`. -/
abbrev ChainId := Nat

/-- Game state enumeration from `lib.rs`. -/
inductive GameState where
  | NotStarted
  | Playing
  | Finished
deriving DecidableEq

/-- Game session structure from `lib.rs`. -/
structure GameSession where
  session_id : String
  player : ChainId
  player_name : Option String
  start_time : Nat
  end_time : Option Nat
  candies_collected : Nat
  is_record : Bool
  state : GameState
deriving DecidableEq

/-- Leaderboard entry from `lib.rs`. -/
structure LeaderboardEntry where
  chain_id : ChainId
  player_name : Option String
  highest_score : Nat
  games_played : Nat
  total_candies : Nat
deriving DecidableEq

/-- Cross-chain messages from `lib.rs` (`GameMessage`). -/
inductive GameMessage where
  | StartGame (session_id : String) (player_chain : ChainId) (player_name : Option String)
  | GameFinished (session_id : String) (player_chain : ChainId)
      (candies_collected : Nat) (is_new_record : Bool)
  | UpdateLeaderboard (player_chain : ChainId) (candies_collected : Nat) (is_new_record : Bool)
  | UpdatePlayerName (player_chain : ChainId) (player_name : String)
  | LeaderboardReset
  | CandyCollected (session_id : String) (player_chain : ChainId)
deriving DecidableEq

/-- Operations from `lib.rs` (`Operation`). -/
inductive Operation where
  | SetupLeaderboard (leaderboard_chain_id : ChainId)
  | SetPlayerName (name : String)
  | StartGame
  | CollectCandy
  | EndGame
  | GetLeaderboard
  | GetMyStats
  | GetGameSession (session_id : String)
  | ResetLeaderboard
deriving DecidableEq

/-- Player statistics from `state.rs` (`PlayerStats`). -/
structure PlayerStats where
  chain_id : ChainId
  games_played : Nat
  highest_score : Nat
  total_candies : Nat
  current_streak : Nat
  best_streak : Nat
  last_game_timestamp : Nat
deriving DecidableEq

/-- `PlayerStats::new` from `state.rs`. -/
def PlayerStats.new (chain_id : ChainId) : PlayerStats :=
  { chain_id := chain_id
    games_played := 0
    highest_score := 0
    total_candies := 0
    current_streak := 0
    best_streak := 0
    last_game_timestamp := 0 }

/-- `PlayerStats::add_game` from `state.rs`: returns the updated stats
together with the `is_record` result. -/
def PlayerStats.add_game (s : PlayerStats) (candies_collected : Nat) (timestamp : Nat) :
    PlayerStats × Bool :=
  let s1 := { s with
    games_played := s.games_played + 1
    total_candies := s.total_candies + candies_collected
    last_game_timestamp := timestamp }
  if s1.highest_score < candies_collected then
    let cs := s1.current_streak + 1
    ({ s1 with
        highest_score := candies_collected
        current_streak := cs
        best_streak := if s1.best_streak < cs then cs else s1.best_streak }, true)
  else
    ({ s1 with current_streak := 0 }, false)

/-- Lookup in an association-list map (`MapView::get`). -/
def alGet {κ V : Type} [DecidableEq κ] : List (κ × V) → κ → Option V
  | [], _ => none
  | (k1, v) :: rest, k => if k1 = k then some v else alGet rest k

/-- Insert into a `String`-keyed association-list map (`MapView::insert`):
replace the value in place if the key exists, append otherwise. -/
def alInsert {κ V : Type} [DecidableEq κ] : List (κ × V) → κ → V → List (κ × V)
  | [], k, v => [(k, v)]
  | (k1, v1) :: rest, k, v =>
      if k1 = k then (k, v) :: rest else (k1, v1) :: alInsert rest k v

/-- Insert into a key-sorted `ChainId`-keyed map (`MapView::insert`;
the underlying store enumerates keys in order, so the list is kept
sorted by key). -/
def mapInsert {V : Type} : List (ChainId × V) → ChainId → V → List (ChainId × V)
  | [], k, v => [(k, v)]
  | (k1, v1) :: rest, k, v =>
      if k < k1 then (k, v) :: (k1, v1) :: rest
      else if k = k1 then (k, v) :: rest
      else (k1, v1) :: mapInsert rest k v

/-- Insert into a key-sorted set (`SetView::insert`), idempotent. -/
def setInsert : List ChainId → ChainId → List ChainId
  | [], k => [k]
  | k1 :: rest, k =>
      if k < k1 then k :: k1 :: rest
      else if k = k1 then k1 :: rest
      else k1 :: setInsert rest k

/-- The application state from `state.rs` (`SnakeGameState`). -/
structure SnakeGameState where
  sessions : List (String × GameSession)
  session_counter : Nat
  player_names : List (ChainId × String)
  my_player_name : Option String
  global_leaderboard : List LeaderboardEntry
  player_stats : List (ChainId × PlayerStats)
  leaderboard_participants : List ChainId
  is_leaderboard_chain : Bool
  leaderboard_chain_id : Option ChainId
  my_sessions : List String
  my_stats : Option PlayerStats
  my_current_session : Option String
deriving DecidableEq

/-- The pieces of `ContractRuntime` the contract reads: the local chain
id and the system time in microseconds. -/
structure RuntimeCtx where
  chain_id : ChainId
  time : Nat
deriving DecidableEq

/-- `instantiate` from `contract.rs`: fresh state for a chain, given the
application parameter `leaderboard_chain_id` (views start empty). -/
def instantiateState (params_leaderboard_chain_id : Option ChainId) (chain : ChainId) :
    SnakeGameState :=
  { sessions := []
    session_counter := 0
    player_names := []
    my_player_name := none
    global_leaderboard := []
    player_stats := []
    leaderboard_participants := []
    is_leaderboard_chain :=
      match params_leaderboard_chain_id with
      | some cid => decide (cid = chain)
      | none => false
    leaderboard_chain_id := params_leaderboard_chain_id
    my_sessions := []
    my_stats := none
    my_current_session := none }

/-- The record check of the `EndGame` arm in `contract.rs` (lines
203-207): a finished game is a record when its candy count strictly
exceeds the locally cached highest score; with no prior local stats the
first game is always a record. -/
def end_game_is_record (my_stats : Option PlayerStats) (candies_collected : Nat) : Bool :=
  match my_stats with
  | some stats => decide (stats.highest_score < candies_collected)
  | none => true

/-- Boolean lexicographic comparison of sort-key triples:
`tripleLe p q = true` iff `p` is lexicographically at most `q`. -/
def tripleLe (p q : Nat × Nat × Nat) : Bool :=
  if p.1 < q.1 then true
  else if q.1 < p.1 then false
  else if p.2.1 < q.2.1 then true
  else if q.2.1 < p.2.1 then false
  else decide (p.2.2 ≤ q.2.2)

/-- The sort key of a leaderboard entry. -/
def keyOf (e : LeaderboardEntry) : Nat × Nat × Nat :=
  (e.highest_score, e.total_candies, e.games_played)

/-- `entryLe a b` is the boolean ordering used by the leaderboard sort:
the `sort_by` closure in `contract.rs` compares `b` against `a` on each
component, so `a` sorts before `b` exactly when `b`'s key is
lexicographically at most `a`'s. -/
def entryLe (a b : LeaderboardEntry) : Bool :=
  tripleLe (keyOf b) (keyOf a)

/-- Lexicographic order on sort keys, as a proposition. -/
def lexLe (p q : Nat × Nat × Nat) : Prop :=
  p.1 < q.1 ∨ (p.1 = q.1 ∧ (p.2.1 < q.2.1 ∨ (p.2.1 = q.2.1 ∧ p.2.2 ≤ q.2.2)))

/-- The entry list collected by `rebuild_global_leaderboard`: one entry
per stored `PlayerStats`, joined with the optional player name. -/
def leaderboardEntries (player_stats : List (ChainId × PlayerStats))
    (player_names : List (ChainId × String)) : List LeaderboardEntry :=
  player_stats.map (fun pc =>
    { chain_id := pc.2.chain_id
      player_name := alGet player_names pc.1
      highest_score := pc.2.highest_score
      games_played := pc.2.games_played
      total_candies := pc.2.total_candies })

/-- `rebuild_global_leaderboard` from `contract.rs`: collect an entry
for every stored `PlayerStats`, stable-sort descending by
`(highest_score, total_candies, games_played)`, truncate to the top
100, and replace the published leaderboard. -/
def rebuild_global_leaderboard (st : SnakeGameState) : SnakeGameState :=
  { st with global_leaderboard :=
      ((leaderboardEntries st.player_stats st.player_names).mergeSort entryLe).take 100 }

/-- `update_leaderboard_stats` from `contract.rs`: load or
default-construct the player's stats, apply `add_game` (its result is
discarded, as is the `is_new_record` argument, which the source only
logs), persist, mark the player as a participant, and rebuild. -/
def update_leaderboard_stats (ctx : RuntimeCtx) (st : SnakeGameState)
    (player_chain : ChainId) (candies_collected : Nat) (is_new_record : Bool) :
    SnakeGameState :=
  let stats0 := (alGet st.player_stats player_chain).getD (PlayerStats.new player_chain)
  let stats1 := (stats0.add_game candies_collected ctx.time).1
  rebuild_global_leaderboard
    { st with
        player_stats := mapInsert st.player_stats player_chain stats1
        leaderboard_participants := setInsert st.leaderboard_participants player_chain }

/-- `execute_operation` from `contract.rs`.  Returns `none` when the
Rust code panics (the operation aborts with state unchanged); otherwise
returns the new state and the messages sent, in order. -/
def execute_operation (ctx : RuntimeCtx) (st : SnakeGameState) (op : Operation) :
    Option (SnakeGameState × List (ChainId × GameMessage)) :=
  match op with
  | .SetupLeaderboard cand =>
      if st.leaderboard_chain_id.isSome then none
      else
        let st1 := { st with leaderboard_chain_id := some cand }
        let st2 := if ctx.chain_id = cand then { st1 with is_leaderboard_chain := true } else st1
        some (st2, [])
  | .SetPlayerName name =>
      let st1 := { st with my_player_name := some name }
      match st.leaderboard_chain_id with
      | some lb =>
          if ctx.chain_id ≠ lb then
            some (st1, [(lb, GameMessage.UpdatePlayerName ctx.chain_id name)])
          else
            some ({ st1 with player_names := mapInsert st1.player_names ctx.chain_id name }, [])
      | none => some (st1, [])
  | .StartGame =>
      let cid := ctx.chain_id
      let ctr := st.session_counter
      let sid := s!"session_{cid}_{ctr}"
      let sess : GameSession :=
        { session_id := sid
          player := cid
          player_name := st.my_player_name
          start_time := ctx.time
          end_time := none
          candies_collected := 0
          is_record := false
          state := GameState.Playing }
      some ({ st with
                session_counter := ctr + 1
                sessions := alInsert st.sessions sid sess
                my_sessions := st.my_sessions ++ [sid]
                my_current_session := some sid }, [])
  | .CollectCandy =>
      match st.my_current_session with
      | some sid =>
          match alGet st.sessions sid with
          | some sess =>
              let sess1 := { sess with candies_collected := sess.candies_collected + 1 }
              let st1 := { st with sessions := alInsert st.sessions sid sess1 }
              match st.leaderboard_chain_id with
              | some lb => some (st1, [(lb, GameMessage.CandyCollected sid ctx.chain_id)])
              | none => some (st1, [])
          | none => some (st, [])
      | none => some (st, [])
  | .EndGame =>
      match st.my_current_session with
      | some sid =>
          match alGet st.sessions sid with
          | some sess =>
              let candies := sess.candies_collected
              let isrec := end_game_is_record st.my_stats candies
              let sess1 := { sess with
                end_time := some ctx.time
                state := GameState.Finished
                is_record := isrec }
              let st1 := { st with sessions := alInsert st.sessions sid sess1 }
              let msgs :=
                if isrec then
                  match st.leaderboard_chain_id with
                  | some lb => [(lb, GameMessage.GameFinished sid ctx.chain_id candies isrec)]
                  | none => []
                else []
              let stats0 := st1.my_stats.getD (PlayerStats.new ctx.chain_id)
              let stats1 := (stats0.add_game candies ctx.time).1
              some ({ st1 with my_stats := some stats1, my_current_session := none }, msgs)
          | none => some (st, [])
      | none => some (st, [])
  | .GetLeaderboard => some (st, [])
  | .GetMyStats => some (st, [])
  | .GetGameSession _ => some (st, [])
  | .ResetLeaderboard =>
      if st.is_leaderboard_chain then
        let players := st.leaderboard_participants
        let st1 := { st with
          global_leaderboard := []
          player_stats := []
          leaderboard_participants := []
          session_counter := 0 }
        some (st1, (players.filter (fun p => p ≠ ctx.chain_id)).map
          (fun p => (p, GameMessage.LeaderboardReset)))
      else none

/-- `execute_message` from `contract.rs`.  The transport-level bounce
flag is checked first: a bouncing message is dropped before dispatch.
Message handlers never panic and never send messages. -/
def execute_message (ctx : RuntimeCtx) (is_bouncing : Bool) (st : SnakeGameState)
    (msg : GameMessage) : SnakeGameState × List (ChainId × GameMessage) :=
  if is_bouncing then (st, [])
  else
    match msg with
    | .StartGame _ _ _ => (st, [])
    | .CandyCollected _ _ =>
        -- only logged, on every chain: no state change
        (st, [])
    | .GameFinished _ player_chain candies_collected is_new_record =>
        if st.is_leaderboard_chain then
          (update_leaderboard_stats ctx st player_chain candies_collected is_new_record, [])
        else (st, [])
    | .UpdateLeaderboard player_chain candies_collected is_new_record =>
        if st.is_leaderboard_chain then
          (update_leaderboard_stats ctx st player_chain candies_collected is_new_record, [])
        else (st, [])
    | .UpdatePlayerName player_chain player_name =>
        if st.is_leaderboard_chain then
          ({ st with player_names := mapInsert st.player_names player_chain player_name }, [])
        else (st, [])
    | .LeaderboardReset =>
        if st.is_leaderboard_chain then (st, [])
        else
          let st1 :=
            match st.my_stats with
            | some stats =>
                { st with my_stats := some { stats with
                    highest_score := 0
                    games_played := 0
                    total_candies := 0
                    current_streak := 0
                    best_streak := 0 } }
            | none => st
          ({ st1 with global_leaderboard := [] }, [])

/-- Folding a sequence of games through `PlayerStats.add_game`. -/
def runGames (s : PlayerStats) (l : List (Nat × Nat)) : PlayerStats :=
  l.foldl (fun acc p => (acc.add_game p.1 p.2).1) s

/-- Maximum of the candy counts in a game sequence (0 when empty). -/
def maxCandies : List (Nat × Nat) → Nat
  | [] => 0
  | (c, _) :: rest => max c (maxCandies rest)

/-- Sum of the candy counts in a game sequence. -/
def sumCandies : List (Nat × Nat) → Nat
  | [] => 0
  | (c, _) :: rest => c + sumCandies rest

/-- Projection facts about a single `add_game` step. -/
theorem add_game_fields (s : PlayerStats) (c t : Nat) :
    (s.add_game c t).1.games_played = s.games_played + 1 ∧
    (s.add_game c t).1.total_candies = s.total_candies + c ∧
    (s.add_game c t).1.highest_score = max s.highest_score c ∧
    (s.add_game c t).1.last_game_timestamp = t ∧
    (s.add_game c t).1.chain_id = s.chain_id := by
  unfold PlayerStats.add_game
  by_cases h : s.highest_score < c
  · simp [h]; omega
  · simp [h]; omega

/-- Behaviour of a single `add_game` step on the result flag and the
streak counters. -/
theorem add_game_record (s : PlayerStats) (c t : Nat) :
    ((s.add_game c t).2 = true ↔ s.highest_score < c) ∧
    (s.highest_score < c →
      (s.add_game c t).1.current_streak = s.current_streak + 1 ∧
      (s.add_game c t).1.current_streak ≤ (s.add_game c t).1.best_streak ∧
      s.best_streak ≤ (s.add_game c t).1.best_streak) ∧
    (¬ s.highest_score < c → (s.add_game c t).1.current_streak = 0) := by
  unfold PlayerStats.add_game
  by_cases h : s.highest_score < c
  · simp [h]; split_ifs <;> omega
  · simp [h]

/-- Default timestamp threading through a game sequence. -/
def lastTimestamp (d : Nat) : List (Nat × Nat) → Nat
  | [] => d
  | (_, t) :: rest => lastTimestamp t rest

theorem runGames_fields (l : List (Nat × Nat)) : ∀ s : PlayerStats,
    (runGames s l).games_played = s.games_played + l.length ∧
    (runGames s l).total_candies = s.total_candies + sumCandies l ∧
    (runGames s l).highest_score = max s.highest_score (maxCandies l) ∧
    (runGames s l).last_game_timestamp = lastTimestamp s.last_game_timestamp l := by
  induction l with
  | nil => intro s; simp [runGames, sumCandies, maxCandies, lastTimestamp]
  | cons p rest ih =>
      intro s
      obtain ⟨c, t⟩ := p
      have hstep := add_game_fields s c t
      have h := ih (s.add_game c t).1
      have hrun : runGames s ((c, t) :: rest) = runGames (s.add_game c t).1 rest := rfl
      refine ⟨?_, ?_, ?_, ?_⟩
      · rw [hrun, h.1, hstep.1]; simp [List.length_cons]; omega
      · rw [hrun, h.2.1, hstep.2.1]; simp [sumCandies]; omega
      · rw [hrun, h.2.2.1, hstep.2.2.1]; simp [maxCandies]; omega
      · rw [hrun, h.2.2.2, hstep.2.2.2.1]; rfl

theorem lastTimestamp_getLast (l : List (Nat × Nat)) :
    ∀ (d c t : Nat), l.getLast? = some (c, t) → lastTimestamp d l = t := by
  induction l with
  | nil => intro d c t h; simp at h
  | cons p rest ih =>
      intro d c t h
      obtain ⟨c1, t1⟩ := p
      cases rest with
      | nil => simp [List.getLast?] at h; simp [lastTimestamp, h.2]
      | cons q rest1 =>
          rw [List.getLast?_cons_cons] at h
          exact ih t1 c t h

/-- Claim C1: for every finite sequence of `add_game(candies, timestamp)`
calls applied to a freshly constructed `PlayerStats` (all counters
zero), the resulting `highest_score` is the maximum candies argument
seen (0 for the empty sequence), `games_played` is the number of calls,
`total_candies` is the sum of the candies arguments, and
`last_game_timestamp` is the timestamp of the last call; moreover each
individual call returns `true` iff its candies argument strictly
exceeds the `highest_score` before that call, in which case
`current_streak` is incremented and `best_streak` is at least
`current_streak` (and never lowered), otherwise `current_streak` is
reset to 0. -/
theorem claimC1_add_game_sequence (cid : ChainId) (l : List (Nat × Nat)) :
    (runGames (PlayerStats.new cid) l).highest_score = maxCandies l ∧
    (runGames (PlayerStats.new cid) l).games_played = l.length ∧
    (runGames (PlayerStats.new cid) l).total_candies = sumCandies l ∧
    (∀ c t : Nat, l.getLast? = some (c, t) →
      (runGames (PlayerStats.new cid) l).last_game_timestamp = t) ∧
    (∀ (s : PlayerStats) (c t : Nat),
      ((s.add_game c t).2 = true ↔ s.highest_score < c) ∧
      (s.highest_score < c →
        (s.add_game c t).1.current_streak = s.current_streak + 1 ∧
        (s.add_game c t).1.current_streak ≤ (s.add_game c t).1.best_streak ∧
        s.best_streak ≤ (s.add_game c t).1.best_streak) ∧
      (¬ s.highest_score < c → (s.add_game c t).1.current_streak = 0)) := by
  have h := runGames_fields l (PlayerStats.new cid)
  refine ⟨?_, ?_, ?_, ?_, fun s c t => add_game_record s c t⟩
  · rw [h.2.2.1]; simp [PlayerStats.new]
  · rw [h.1]; simp [PlayerStats.new]
  · rw [h.2.1]; simp [PlayerStats.new]
  · intro c t hl
    rw [h.2.2.2]
    exact lastTimestamp_getLast l _ c t hl

/-- Witness for C1 at a concrete game sequence. -/
theorem claimC1_add_game_sequence_witness :
    (runGames (PlayerStats.new 0) [(5, 11), (3, 12)]).last_game_timestamp = 12 :=
  (claimC1_add_game_sequence 0 [(5, 11), (3, 12)]).2.2.2.1 3 12 (by decide)

/-- Claim C2: on the authority chain, with no stored stats for player
chain 1, processing `GameFinished{player=1, candies=10, record=true}`
and then `GameFinished{player=1, candies=7, record=true}` (both
non-bouncing) yields stats for player 1 of `games_played = 2`,
`highest_score = 10`, `total_candies = 17`, `current_streak = 0`, and
`best_streak = 1` (the second report is not a record and resets the
streak). -/
theorem claimC2_duplicate_report_scenario :
    alGet ((execute_message ⟨0, 200⟩ false
        ((execute_message ⟨0, 100⟩ false (instantiateState (some 0) 0)
          (GameMessage.GameFinished "s1" 1 10 true)).1)
        (GameMessage.GameFinished "s2" 1 7 true)).1.player_stats) 1 =
      some { chain_id := 1
             games_played := 2
             highest_score := 10
             total_candies := 17
             current_streak := 0
             best_streak := 1
             last_game_timestamp := 200 } := by
  rfl

theorem tripleLe_iff (p q : Nat × Nat × Nat) : tripleLe p q = true ↔ lexLe p q := by
  obtain ⟨a, b, c⟩ := p
  obtain ⟨d, e, f⟩ := q
  simp only [tripleLe, lexLe]
  split_ifs <;> simp <;> omega

theorem tripleLe_refl (p : Nat × Nat × Nat) : tripleLe p p = true := by
  obtain ⟨a, b, c⟩ := p
  simp [tripleLe]

theorem tripleLe_total (p q : Nat × Nat × Nat) : tripleLe p q || tripleLe q p := by
  obtain ⟨a, b, c⟩ := p
  obtain ⟨d, e, f⟩ := q
  simp only [tripleLe]
  split_ifs <;> simp <;> omega

theorem tripleLe_trans (p q r : Nat × Nat × Nat)
    (h1 : tripleLe p q) (h2 : tripleLe q r) : tripleLe p r = true := by
  rw [tripleLe_iff] at h1 h2 ⊢
  obtain ⟨a, b, c⟩ := p
  obtain ⟨d, e, f⟩ := q
  obtain ⟨g, i, j⟩ := r
  simp only [lexLe] at h1 h2 ⊢
  omega

theorem entryLe_total (a b : LeaderboardEntry) : entryLe a b || entryLe b a := by
  unfold entryLe
  have := tripleLe_total (keyOf b) (keyOf a)
  rcases Bool.or_eq_true_iff.mp this with h | h <;> simp [h]

theorem entryLe_trans (a b c : LeaderboardEntry)
    (h1 : entryLe a b) (h2 : entryLe b c) : entryLe a c = true :=
  tripleLe_trans (keyOf c) (keyOf b) (keyOf a) h2 h1

theorem entryLe_of_keyOf_eq {a b : LeaderboardEntry} (h : keyOf a = keyOf b) :
    entryLe a b = true := by
  unfold entryLe
  rw [h]
  exact tripleLe_refl (keyOf b)

/-- Claim C3: after every leaderboard rebuild, the published global
leaderboard is sorted in non-increasing lexicographic order of the
triple `(highest_score, total_candies, games_played)` (entries with
equal triples keeping their stable relative order, expressed as: for
each triple value, the published entries with that triple form a
subsequence of the collected entry list in its original order), its
length is `min 100 participant_count` where `participant_count` is the
number of players with stored `PlayerStats`, and the newly built list
fully replaces the previously published snapshot (the result does not
depend on it). -/
theorem claimC3_rebuild_sorted_truncated (st : SnakeGameState) :
    ((rebuild_global_leaderboard st).global_leaderboard).Pairwise
      (fun a b => lexLe (keyOf b) (keyOf a)) ∧
    (rebuild_global_leaderboard st).global_leaderboard.length =
      min 100 st.player_stats.length ∧
    (∀ k : Nat × Nat × Nat,
      ((rebuild_global_leaderboard st).global_leaderboard.filter
          (fun e => decide (keyOf e = k))).Sublist
        ((leaderboardEntries st.player_stats st.player_names).filter
          (fun e => decide (keyOf e = k)))) ∧
    (∀ prev : List LeaderboardEntry,
      (rebuild_global_leaderboard { st with global_leaderboard := prev }).global_leaderboard =
        (rebuild_global_leaderboard st).global_leaderboard) := by
  refine ⟨?_, ?_, ?_, fun prev => rfl⟩
  · have hs := @List.sorted_mergeSort LeaderboardEntry entryLe entryLe_trans entryLe_total
      (leaderboardEntries st.player_stats st.player_names)
    have htake : (((leaderboardEntries st.player_stats st.player_names).mergeSort
        entryLe).take 100).Sublist
        ((leaderboardEntries st.player_stats st.player_names).mergeSort entryLe) :=
      List.take_sublist _ _
    have hp := hs.sublist htake
    exact hp.imp (fun h => (tripleLe_iff _ _).mp h)
  · simp [rebuild_global_leaderboard, List.length_take, leaderboardEntries]
  · intro k
    set L := leaderboardEntries st.player_stats st.player_names with hL
    set p : LeaderboardEntry → Bool := fun e => decide (keyOf e = k) with hp
    have hkey : ∀ e ∈ L.filter p, keyOf e = k := by
      intro e he
      have := List.of_mem_filter he
      simpa [hp] using this
    have hpw : (L.filter p).Pairwise (fun a b => entryLe a b = true) := by
      apply List.pairwise_of_forall_mem_list
      intro a ha b hb
      exact entryLe_of_keyOf_eq ((hkey a ha).trans (hkey b hb).symm)
    have hsub : (L.filter p).Sublist (L.mergeSort entryLe) :=
      List.sublist_mergeSort entryLe_trans entryLe_total hpw (List.filter_sublist L)
    have hperm : List.Perm ((L.mergeSort entryLe).filter p) (L.filter p) :=
      (List.mergeSort_perm L entryLe).filter p
    have hfsub : ((L.filter p).filter p).Sublist ((L.mergeSort entryLe).filter p) :=
      hsub.filter p
    have hff : (L.filter p).filter p = L.filter p := by
      simp [List.filter_filter]
    rw [hff] at hfsub
    have heq : L.filter p = (L.mergeSort entryLe).filter p :=
      hfsub.eq_of_length (hperm.length_eq.symm)
    have htake : (((L.mergeSort entryLe).take 100).filter p).Sublist
        ((L.mergeSort entryLe).filter p) :=
      (List.take_sublist _ _).filter p
    rw [← heq] at htake
    exact htake

/-- Claim C4: for every `EndGame` operation with a current session,
`is_record` is `candies_collected > locally cached highest_score`
(defaulting to `true` with no prior local stats), and a `GameFinished`
message carrying `(session_id, owner, candies_collected, is_record)` is
sent to the authority chain iff `is_record` holds; in particular a
non-record `EndGame` sends no outbound message at all. -/
theorem claimC4_endgame_record_gating (ctx : RuntimeCtx) (st : SnakeGameState)
    (sid : String) (sess : GameSession)
    (hcur : st.my_current_session = some sid)
    (hsess : alGet st.sessions sid = some sess) :
    (end_game_is_record st.my_stats sess.candies_collected = false →
      (execute_operation ctx st Operation.EndGame).map Prod.snd = some []) ∧
    (∀ lb : ChainId, st.leaderboard_chain_id = some lb →
      (execute_operation ctx st Operation.EndGame).map Prod.snd =
        some (if end_game_is_record st.my_stats sess.candies_collected
              then [(lb, GameMessage.GameFinished sid ctx.chain_id sess.candies_collected
                      (end_game_is_record st.my_stats sess.candies_collected))]
              else [])) := by
  constructor
  · intro hrec
    simp [execute_operation, hcur, hsess, hrec]
  · intro lb hlb
    by_cases hrec : end_game_is_record st.my_stats sess.candies_collected
    · simp [execute_operation, hcur, hsess, hlb, hrec]
    · simp [execute_operation, hcur, hsess, hlb, hrec]

/-- Concrete player state used to witness C4: one finished-sized session
worth 4 candies, cached highest score 9, so the game is not a record. -/
def endGameSessionW : GameSession :=
  { session_id := "session_2_0"
    player := 2
    player_name := none
    start_time := 0
    end_time := none
    candies_collected := 4
    is_record := false
    state := GameState.Playing }

def endGameStateW : SnakeGameState :=
  { instantiateState (some 0) 2 with
      sessions := [("session_2_0", endGameSessionW)]
      my_sessions := ["session_2_0"]
      my_current_session := some "session_2_0"
      my_stats := some { PlayerStats.new 2 with highest_score := 9, games_played := 3 } }

/-- Witness for C4: the non-record `EndGame` above sends no message. -/
theorem claimC4_endgame_record_gating_witness :
    (execute_operation ⟨2, 50⟩ endGameStateW Operation.EndGame).map Prod.snd = some [] :=
  (claimC4_endgame_record_gating ⟨2, 50⟩ endGameStateW "session_2_0" endGameSessionW
    rfl rfl).1 rfl

/-- Claim C5: `SetupLeaderboard` succeeds at most once per chain.  From
an unconfigured state it stores the candidate and sets the authority
flag exactly when the local chain is the candidate; once
`leaderboard_chain_id` is `some`, every further `SetupLeaderboard`
fails fatally (`none` models the panic aborting the operation with the
durable state rolled back, so the stored configuration and all other
state are unchanged), whatever the argument. -/
theorem claimC5_setup_at_most_once (ctx ctx' : RuntimeCtx) (st : SnakeGameState)
    (cand : ChainId) (h : st.leaderboard_chain_id = none) :
    execute_operation ctx st (Operation.SetupLeaderboard cand) =
      some ({ st with
                leaderboard_chain_id := some cand
                is_leaderboard_chain :=
                  if ctx.chain_id = cand then true else st.is_leaderboard_chain }, []) ∧
    (∀ (st2 : SnakeGameState) (cand2 : ChainId), st2.leaderboard_chain_id ≠ none →
      execute_operation ctx' st2 (Operation.SetupLeaderboard cand2) = none) := by
  constructor
  · by_cases hc : ctx.chain_id = cand
    · simp [execute_operation, h, hc]
    · simp [execute_operation, h, hc]
  · intro st2 cand2 h2
    have h3 : st2.leaderboard_chain_id.isSome := Option.isSome_iff_ne_none.mpr h2
    simp [execute_operation, h3]

/-- Witness for C5: a first call on an unconfigured chain succeeds and a
second call on the resulting state fails. -/
theorem claimC5_setup_at_most_once_witness :
    execute_operation ⟨5, 0⟩ (instantiateState none 5) (Operation.SetupLeaderboard 7) =
      some ({ instantiateState none 5 with
                leaderboard_chain_id := some 7
                is_leaderboard_chain :=
                  if (5 : ChainId) = 7 then true
                  else (instantiateState none 5).is_leaderboard_chain }, []) ∧
    execute_operation ⟨5, 0⟩
      { instantiateState none 5 with leaderboard_chain_id := some 7 }
      (Operation.SetupLeaderboard 9) = none :=
  ⟨(claimC5_setup_at_most_once ⟨5, 0⟩ ⟨5, 0⟩ (instantiateState none 5) 7 rfl).1,
   (claimC5_setup_at_most_once ⟨5, 0⟩ ⟨5, 0⟩ (instantiateState none 5) 7 rfl).2
     { instantiateState none 5 with leaderboard_chain_id := some 7 } 9 (by simp)⟩

theorem count_reset_messages (cid q : ChainId) :
    ∀ l : List ChainId, l.Nodup →
      ((l.filter (fun p => p ≠ cid)).map (fun p => (p, GameMessage.LeaderboardReset))).count
          (q, GameMessage.LeaderboardReset) =
        if q ∈ l ∧ q ≠ cid then 1 else 0 := by
  intro l
  induction l with
  | nil => intro _; simp
  | cons k rest ih =>
      intro hnd
      obtain ⟨hk, hrest⟩ := List.nodup_cons.mp hnd
      have ihr := ih hrest
      by_cases hkc : k = cid
      · subst hkc
        have hfc : List.filter (fun p => decide (p ≠ k)) (k :: rest) =
            List.filter (fun p => decide (p ≠ k)) rest := by
          simp [List.filter_cons]
        rw [hfc, ihr]
        by_cases hq : q = k
        · simp [hq]
        · simp [List.mem_cons, hq]
      · have hfc : List.filter (fun p => decide (p ≠ cid)) (k :: rest) =
            k :: List.filter (fun p => decide (p ≠ cid)) rest := by
          simp [List.filter_cons, hkc]
        rw [hfc, List.map_cons]
        by_cases hqk : q = k
        · subst hqk
          rw [List.count_cons_self, ihr]
          simp [hk, List.mem_cons, hkc]
        · rw [List.count_cons_of_ne (by simp [hqk]), ihr]
          simp [List.mem_cons, hqk]

/-- Claim C6: `ResetLeaderboard` on a non-authority chain fails fatally
(`none` models the panic, with state rolled back unchanged); on the
authority chain it clears the stored `PlayerStats`, the participant
set, the published leaderboard and the session counter, and sends
exactly one `LeaderboardReset` message to each snapshotted participant
other than the authority chain itself, and to no one else. -/
theorem claimC6_reset_fanout (ctx : RuntimeCtx) (st : SnakeGameState) :
    (st.is_leaderboard_chain = false →
      execute_operation ctx st Operation.ResetLeaderboard = none) ∧
    (st.is_leaderboard_chain = true →
      execute_operation ctx st Operation.ResetLeaderboard =
        some ({ st with
                  global_leaderboard := []
                  player_stats := []
                  leaderboard_participants := []
                  session_counter := 0 },
              (st.leaderboard_participants.filter (fun p => p ≠ ctx.chain_id)).map
                (fun p => (p, GameMessage.LeaderboardReset)))) ∧
    (st.leaderboard_participants.Nodup →
      ∀ q : ChainId,
        ((st.leaderboard_participants.filter (fun p => p ≠ ctx.chain_id)).map
            (fun p => (p, GameMessage.LeaderboardReset))).count
            (q, GameMessage.LeaderboardReset) =
          if q ∈ st.leaderboard_participants ∧ q ≠ ctx.chain_id then 1 else 0) := by
  refine ⟨?_, ?_, ?_⟩
  · intro h
    simp [execute_operation, h]
  · intro h
    simp [execute_operation, h]
  · intro hnd q
    exact count_reset_messages ctx.chain_id q st.leaderboard_participants hnd

/-- Authority state used to witness C6: participants are chains 1 and 2,
the authority itself is chain 0. -/
def resetStateW : SnakeGameState :=
  { instantiateState (some 0) 0 with
      leaderboard_participants := [1, 2]
      player_stats := [(1, PlayerStats.new 1), (2, PlayerStats.new 2)] }

/-- Witness for C6: with participants 1 and 2 the reset on authority
chain 0 sends exactly the two reset messages, one to each. -/
theorem claimC6_reset_fanout_witness :
    execute_operation ⟨0, 9⟩ resetStateW Operation.ResetLeaderboard =
      some ({ resetStateW with
                global_leaderboard := []
                player_stats := []
                leaderboard_participants := []
                session_counter := 0 },
            [(1, GameMessage.LeaderboardReset), (2, GameMessage.LeaderboardReset)]) ∧
    ((resetStateW.leaderboard_participants.filter (fun p => p ≠ (0 : ChainId))).map
        (fun p => (p, GameMessage.LeaderboardReset))).count
        (1, GameMessage.LeaderboardReset) = 1 :=
  ⟨(claimC6_reset_fanout ⟨0, 9⟩ resetStateW).2.1 rfl,
   (claimC6_reset_fanout ⟨0, 9⟩ resetStateW).2.2 (by decide) 1⟩

/-- Claim C7: for every message kind and every shard state, executing an
inbound message whose transport-level bounce flag is set leaves the
entire state unchanged and sends no outbound messages: the bounced
message is dropped before any dispatch. -/
theorem claimC7_bounced_message_dropped (ctx : RuntimeCtx) (st : SnakeGameState)
    (msg : GameMessage) :
    execute_message ctx true st msg = (st, []) := rfl

/-- Claim C8: a non-authority chain processing a non-bouncing
`LeaderboardReset` zeroes `highest_score`, `games_played`,
`total_candies`, `current_streak` and `best_streak` of its cached
personal stats (when present), clears its locally cached leaderboard
snapshot, and leaves its stored `GameSession` records — the sessions
map and the session-id history — completely unchanged. -/
theorem claimC8_reset_player_side (ctx : RuntimeCtx) (st : SnakeGameState)
    (h : st.is_leaderboard_chain = false) :
    (∀ stats : PlayerStats, st.my_stats = some stats →
      (execute_message ctx false st GameMessage.LeaderboardReset).1.my_stats =
        some { stats with
                 highest_score := 0
                 games_played := 0
                 total_candies := 0
                 current_streak := 0
                 best_streak := 0 }) ∧
    (execute_message ctx false st GameMessage.LeaderboardReset).1.global_leaderboard = [] ∧
    (execute_message ctx false st GameMessage.LeaderboardReset).1.sessions = st.sessions ∧
    (execute_message ctx false st GameMessage.LeaderboardReset).1.my_sessions =
      st.my_sessions := by
  refine ⟨?_, ?_, ?_, ?_⟩
  · intro stats hs
    simp [execute_message, h, hs]
  · cases hs : st.my_stats <;> simp [execute_message, h, hs]
  · cases hs : st.my_stats <;> simp [execute_message, h, hs]
  · cases hs : st.my_stats <;> simp [execute_message, h, hs]

/-- Player state used to witness C8: cached stats and a finished session
on a non-authority chain. -/
def finishedSessionW : GameSession :=
  { endGameSessionW with
      session_id := "session_3_0"
      player := 3
      state := GameState.Finished }

def resetPlayerStateW : SnakeGameState :=
  { instantiateState (some 0) 3 with
      sessions := [("session_3_0", finishedSessionW)]
      my_sessions := ["session_3_0"]
      my_stats := some { PlayerStats.new 3 with
        highest_score := 6
        games_played := 2
        total_candies := 8
        current_streak := 1
        best_streak := 1 } }

/-- Witness for C8 at the concrete player state above. -/
theorem claimC8_reset_player_side_witness :
    (execute_message ⟨3, 77⟩ false resetPlayerStateW GameMessage.LeaderboardReset).1.sessions =
      resetPlayerStateW.sessions :=
  (claimC8_reset_player_side ⟨3, 77⟩ resetPlayerStateW rfl).2.2.1

/-- Claim C9: the leaderboard rebuild is a pure deterministic function
of the `PlayerStats` map and the player-name map: two states agreeing
on those two maps rebuild identical published lists, and rebuilding a
second time from an unchanged input republishes exactly the same list
(idempotence), with no dependence on the previously published
snapshot. -/
theorem claimC9_rebuild_pure (st1 st2 : SnakeGameState)
    (hps : st1.player_stats = st2.player_stats)
    (hpn : st1.player_names = st2.player_names) :
    (rebuild_global_leaderboard st1).global_leaderboard =
      (rebuild_global_leaderboard st2).global_leaderboard ∧
    (rebuild_global_leaderboard (rebuild_global_leaderboard st1)).global_leaderboard =
      (rebuild_global_leaderboard st1).global_leaderboard := by
  constructor
  · simp only [rebuild_global_leaderboard, hps, hpn]
  · rfl

/-- Witness for C9: two concrete states differing only in fields the
rebuild does not read produce identical published lists. -/
theorem claimC9_rebuild_pure_witness :
    (rebuild_global_leaderboard resetStateW).global_leaderboard =
      (rebuild_global_leaderboard { resetStateW with session_counter := 42 }).global_leaderboard ∧
    (rebuild_global_leaderboard (rebuild_global_leaderboard resetStateW)).global_leaderboard =
      (rebuild_global_leaderboard resetStateW).global_leaderboard :=
  claimC9_rebuild_pure resetStateW { resetStateW with session_counter := 42 } rfl rfl

/-- Claim C10: the authority aggregation is independent of the
`is_new_record` and `session_id` fields of incoming `GameFinished` and
`UpdateLeaderboard` messages: from the same state, messages agreeing on
`player_chain` and `candies_collected` produce identical results (for
any kind pairing), because `update_leaderboard_stats` recomputes record
status via `add_game` and discards the flag carried in the message. -/
theorem claimC10_flag_independence (ctx : RuntimeCtx) (st : SnakeGameState)
    (pc c : ChainId) (sid1 sid2 : String) (r1 r2 : Bool) :
    execute_message ctx false st (GameMessage.GameFinished sid1 pc c r1) =
      execute_message ctx false st (GameMessage.GameFinished sid2 pc c r2) ∧
    execute_message ctx false st (GameMessage.UpdateLeaderboard pc c r1) =
      execute_message ctx false st (GameMessage.UpdateLeaderboard pc c r2) ∧
    execute_message ctx false st (GameMessage.GameFinished sid1 pc c r1) =
      execute_message ctx false st (GameMessage.UpdateLeaderboard pc c r2) := by
  refine ⟨rfl, rfl, rfl⟩
